import Mathlib

/-!
Shallow embedding of the asset-cache subsystem of the repository
(Go package `loader`, file `src/unnamed/part_000`), together with proofs
about the claims of its natural-language specification.

Modelling conventions:
- Go's mutable `AssetManager` becomes an explicit state record `AMState`;
  each Go method becomes a state-passing Lean function.
- `map[string]*Asset` becomes `String → Option Asset`; `map[string]int`
  (whose missing keys read as 0) becomes `String → Int`.
- Buffered channels become lists bounded by their capacity constants;
  a `select`-with-`default` send appends only when the buffer has room.
- `time.Now()` is passed in as an explicit `now : Nat` parameter; the
  sleeps of the workers do not change manager state and are elided.
- raylib's `LoadImage`/`LoadTextureFromImage` never fail at the Go level
  (a missing or undecodable file yields an empty image and an invalid
  zero-size texture), so resource construction is modelled as a total
  oracle `li : String → Texture2D` mapping a file path to the texture it
  produces; a failed decode is the empty texture.
- Go string slicing `assetID[:9]` panics when the string is shorter than
  9 bytes; and `sync.RWMutex` is not reentrant, so acquiring the write
  lock while the same call path already holds it blocks forever.  Both
  abnormal outcomes are made explicit by the `Outcome` type: functions
  that can hit them return `Outcome` instead of a plain state, and
  `loadAssetSync` takes a `muHeld` flag recording whether the caller is
  currently holding the Registry write lock.
-/

namespace Loader

/-! ## Definitions: shallow embedding of the asset cache -/

/-- Asset priority levels (`AssetPriority` in the source). -/
inductive AssetPriority
  | low
  | medium
  | high
  | critical
deriving DecidableEq, Repr

/-- Asset states for streaming (`AssetState` in the source). -/
inductive AssetState
  | unloaded
  | loading
  | loaded
  | unloading
deriving DecidableEq, Repr

/-- A GPU texture handle (`rl.Texture2D`), reduced to the fields the cache
reads: width and height.  The invalid texture returned by a failed load is
`⟨0, 0⟩`. -/
structure Texture2D where
  width : Nat
  height : Nat
deriving DecidableEq, Repr

/-- One cached asset (`Asset` in the source).  `loadFuture` is the
one-shot buffered channel `LoadFuture chan bool` of capacity 1, modelled
as the list of values currently buffered. -/
structure Asset where
  id : String
  texture : Texture2D
  state : AssetState
  priority : AssetPriority
  size : Int
  lastUsed : Nat
  refCount : Int
  loadFuture : List Bool
deriving DecidableEq, Repr

/-- Capacity of the `loadQueue` channel (`make(chan string, 100)`). -/
def loadQueueCap : Nat := 100

/-- Capacity of the `unloadQueue` channel (`make(chan string, 100)`). -/
def unloadQueueCap : Nat := 100

/-- The state of the `AssetManager`. -/
structure AMState where
  assets : String → Option Asset
  memoryUsed : Int
  memoryLimit : Int
  loadQueue : List String
  unloadQueue : List String
  refCounts : String → Int
  accessOrder : List String
  maxCached : Nat

/-- The initial `AssetManagerGlobal` value. -/
def initState : AMState :=
  { assets := fun _ => none
    memoryUsed := 0
    memoryLimit := 512 * 1024 * 1024
    loadQueue := []
    unloadQueue := []
    refCounts := fun _ => 0
    accessOrder := []
    maxCached := 50 }

/-- Point update of the asset map. -/
def upd (f : String → Option Asset) (id : String) (a : Asset) :
    String → Option Asset :=
  fun x => if x = id then some a else f x

/-- The `select { case asset.LoadFuture <- v: default: }` send on the
capacity-1 future channel: buffer the value if there is room, else drop it. -/
def sendSignal (c : List Bool) (v : Bool) : List Bool :=
  if c.length < 1 then c ++ [v] else c

/-- Result of running a call path that can terminate abnormally:
`panicked` models a Go runtime panic (which kills the process),
`deadlocked` models blocking forever on a lock the caller already holds. -/
inductive Outcome
  | panicked
  | deadlocked
  | ok (s : AMState)

/-- The zero value of a freshly created `Asset` record in `RequestAsset`
(Go zero values for the unset fields, `State: StateUnloaded`,
`Priority: priority`, fresh empty future channel). -/
def newAsset (id : String) (p : AssetPriority) : Asset :=
  { id := id
    texture := ⟨0, 0⟩
    state := .unloaded
    priority := p
    size := 0
    lastUsed := 0
    refCount := 0
    loadFuture := [] }

/-- `AssetManager.unloadAssetSync`: if the entry exists and is `Loaded`,
free the texture, subtract its size from the running total and reset the
state to `Unloaded` (via the transient `Unloading`); otherwise no-op. -/
def unloadAssetSync (s : AMState) (id : String) : AMState :=
  match s.assets id with
  | none => s
  | some a =>
    if a.state = .loaded then
      { s with
        assets := upd s.assets id { a with state := .unloaded }
        memoryUsed := s.memoryUsed - a.size }
    else s

/-- `AssetManager.loadAssetSync`.  Reads the entry; returns early unless it
is still `Loading`.  Evaluating `assetID[:9]` panics when the identifier is
shorter than 9 bytes.  Otherwise the texture is produced by the decode
oracle `li` applied to the path the source builds (ids with 9-byte head
`character` load `assets/images/character.png`; the `hit` case and the
default case build the same `assets/images/<id>.png` path).  The commit
step re-acquires the Registry write lock: if the caller already holds it
(`muHeld`), the call self-deadlocks; otherwise the texture, its size and
`state = Loaded` are committed, the size is added to the memory total and
the load future is signalled with `true`. -/
def loadAssetSync (li : String → Texture2D) (muHeld : Bool) (s : AMState)
    (id : String) : Outcome :=
  match s.assets id with
  | none => .ok s
  | some a =>
    if a.state = .loading then
      if id.length < 9 then .panicked
      else
        let tex :=
          if id.take 9 = "character" then li "assets/images/character.png"
          else li ("assets/images/" ++ id ++ ".png")
        let size : Int := (tex.width * tex.height * 4 : Nat)
        if muHeld then .deadlocked
        else
          .ok { s with
            assets := upd s.assets id
              { a with
                texture := tex
                size := size
                state := .loaded
                loadFuture := sendSignal a.loadFuture true }
            memoryUsed := s.memoryUsed + size }
    else .ok s

/-- `AssetManager.updateAccessOrder`: remove the first occurrence of the
id, append it at the most-recently-used end, and drop the single
least-recently-used element when the list exceeds `maxCached`. -/
def updateAccessOrder (s : AMState) (id : String) : AMState :=
  let l₁ := s.accessOrder.erase id
  let l₂ := l₁ ++ [id]
  { s with accessOrder := if s.maxCached < l₂.length then l₂.drop 1 else l₂ }

/-- `AssetManager.RequestAsset`: create the entry if absent, bump both
reference counts and `lastUsed`, update recency, and if the entry is
`Unloaded` mark it `Loading` and enqueue a load job — or, when the load
queue is full, run `loadAssetSync` inline while still holding the write
lock. -/
def requestAsset (li : String → Texture2D) (now : Nat) (s : AMState)
    (id : String) (p : AssetPriority) : Outcome :=
  let a := (s.assets id).getD (newAsset id p)
  let a₁ := { a with refCount := a.refCount + 1, lastUsed := now }
  let s₁ :=
    { s with
      assets := upd s.assets id a₁
      refCounts := fun x => if x = id then s.refCounts x + 1 else s.refCounts x }
  let s₂ := updateAccessOrder s₁ id
  if a₁.state = .unloaded then
    let s₃ := { s₂ with assets := upd s₂.assets id { a₁ with state := .loading } }
    if s₃.loadQueue.length < loadQueueCap then
      .ok { s₃ with loadQueue := s₃.loadQueue ++ [id] }
    else
      loadAssetSync li true s₃ id
  else
    .ok s₂

/-- `AssetManager.ReleaseAsset`: for an existing entry, decrement both
reference counts; if the result is `≤ 0` and the priority is not
`Critical`, enqueue an unload candidate (dropped silently when the unload
queue is full).  Releasing an unknown id is a no-op. -/
def releaseAsset (s : AMState) (id : String) : AMState :=
  match s.assets id with
  | none => s
  | some a =>
    let a₁ := { a with refCount := a.refCount - 1 }
    let s₁ :=
      { s with
        assets := upd s.assets id a₁
        refCounts := fun x => if x = id then s.refCounts x - 1 else s.refCounts x }
    if a₁.refCount ≤ 0 ∧ a₁.priority ≠ .critical then
      if s₁.unloadQueue.length < unloadQueueCap then
        { s₁ with unloadQueue := s₁.unloadQueue ++ [id] }
      else s₁
    else s₁

/-- One iteration of `AssetManager.loadWorker`: dequeue the next id (block
— modelled as a no-op — when the queue is empty) and run `loadAssetSync`
without holding the Registry lock. -/
def loadWorkerStep (li : String → Texture2D) (s : AMState) : Outcome :=
  match s.loadQueue with
  | [] => .ok s
  | id :: rest => loadAssetSync li false { s with loadQueue := rest } id

/-- One iteration of `AssetManager.unloadWorker`: dequeue the next unload
candidate, wait the 5-second debounce interval, then re-check the entry
and unload it only if its reference count is still `≤ 0`. -/
def unloadWorkerStep (s : AMState) : AMState :=
  match s.unloadQueue with
  | [] => s
  | id :: rest =>
    let s₁ := { s with unloadQueue := rest }
    match s₁.assets id with
    | none => s₁
    | some a => if a.refCount ≤ 0 then unloadAssetSync s₁ id else s₁

/-- The reclaim target `memoryLimit * 80 / 100` computed by
`freeMemoryLRU`. -/
def targetMemory (s : AMState) : Int :=
  s.memoryLimit * 80 / 100

/-- The loop body of `AssetManager.freeMemoryLRU`: walk the recency list
from least- to most-recently-used while the memory total still exceeds
the target, unloading every entry whose reference count is `≤ 0` and
whose priority is not `Critical` (`unloadAssetSync` itself additionally
requires `Loaded`). -/
def freeLoop (t : Int) : List String → AMState → AMState
  | [], s => s
  | id :: rest, s =>
    if t < s.memoryUsed then
      let s' :=
        match s.assets id with
        | none => s
        | some a =>
          if a.refCount ≤ 0 ∧ a.priority ≠ .critical then unloadAssetSync s id
          else s
      freeLoop t rest s'
    else s

/-- `AssetManager.freeMemoryLRU`. -/
def freeMemoryLRU (s : AMState) : AMState :=
  freeLoop (targetMemory s) s.accessOrder s

/-- One tick of `AssetManager.memoryManager`: run `freeMemoryLRU` when the
memory total exceeds the limit. -/
def memoryManagerStep (s : AMState) : AMState :=
  if s.memoryLimit < s.memoryUsed then freeMemoryLRU s else s

/-- `GameAssetSystem.GetTexture`: under the read lock, if the entry exists
and is `Loaded`, refresh its `lastUsed` and return its texture with
`true`; otherwise return the zero texture with `false`. -/
def getTexture (now : Nat) (s : AMState) (id : String) :
    (Texture2D × Bool) × AMState :=
  match s.assets id with
  | none => ((⟨0, 0⟩, false), s)
  | some a =>
    if a.state = .loaded then
      ((a.texture, true), { s with assets := upd s.assets id { a with lastUsed := now } })
    else ((⟨0, 0⟩, false), s)

/-- The blocking receive `<-asset.LoadFuture` performed by
`GameAssetSystem.LoadSystemAssets` for priorities `≥ High`: succeeds with
the buffered value (consuming it) when the future channel is non-empty;
`none` means the receive blocks. -/
def awaitFuture (s : AMState) (id : String) : Option (Bool × AMState) :=
  match s.assets id with
  | none => none
  | some a =>
    match a.loadFuture with
    | [] => none
    | v :: rest =>
      some (v, { s with assets := upd s.assets id { a with loadFuture := rest } })

/-- Continue an abnormal-exit-aware run with a pure step. -/
def Outcome.runOk (o : Outcome) (f : AMState → AMState) : Outcome :=
  match o with
  | .ok s => .ok (f s)
  | o => o

/-- Continue an abnormal-exit-aware run with another such step. -/
def Outcome.bindO (o : Outcome) (f : AMState → Outcome) : Outcome :=
  match o with
  | .ok s => f s
  | o => o

/-- The final state of a normally-terminating run. -/
def Outcome.getOk : Outcome → Option AMState
  | .ok s => some s
  | _ => none

/-- The entry stored under `id` after a normally-terminating run. -/
def Outcome.assetOf (o : Outcome) (id : String) : Option Asset :=
  o.getOk.bind fun s => s.assets id

/-- The state of the entry stored under `id` after a normally-terminating
run. -/
def Outcome.stateOf (o : Outcome) (id : String) : Option AssetState :=
  (o.assetOf id).map Asset.state

/-- The reference count of the entry stored under `id` after a
normally-terminating run. -/
def Outcome.refCountOf (o : Outcome) (id : String) : Option Int :=
  (o.assetOf id).map Asset.refCount

/-- Whether the run terminated normally. -/
def Outcome.isOk : Outcome → Bool
  | .ok _ => true
  | _ => false

/-- Whether the run ended in a Go panic. -/
def Outcome.isPanicked : Outcome → Bool
  | .panicked => true
  | _ => false

/-- Whether the run ended blocked forever on the Registry lock. -/
def Outcome.isDeadlocked : Outcome → Bool
  | .deadlocked => true
  | _ => false

/-- A decode oracle for concrete scenarios: every path decodes to the
empty (invalid) texture, which is what raylib produces for a missing or
undecodable file. -/
def liMissing : String → Texture2D := fun _ => ⟨0, 0⟩

/-- A decode oracle for concrete scenarios: every path decodes to a valid
16×16 texture. -/
def liSmall : String → Texture2D := fun _ => ⟨16, 16⟩

/-! ### C1: reference counts under request/release sequences -/

/-- The C1 scenario: one request of `"alpha"`, then two releases. -/
def c1Run : Outcome :=
  (requestAsset liMissing 0 initState "alpha" .low).runOk
    (fun s => releaseAsset (releaseAsset s "alpha") "alpha")

/-- A concrete already-requested entry for the C1 witness. -/
def c1Asset : Asset :=
  { newAsset "alpha" .low with state := .loaded, refCount := 0 }

/-- A concrete state holding `c1Asset` for the C1 witness. -/
def c1State : AMState :=
  { initState with assets := upd initState.assets "alpha" c1Asset }

/-! ### C2: behaviour of the synchronous fallback under queue saturation -/

/-- A state whose load queue is saturated (100 buffered ids). -/
def fullQueueState : AMState :=
  { initState with loadQueue := List.replicate loadQueueCap "queued" }

/-! ### C3: what the load step does when resource construction fails -/

/-- The C3 scenario: request `"character"` (a well-formed 9-byte id) with
an empty load queue, then run the load worker with the failing decode
oracle `liMissing` (missing file → empty texture). -/
def c3Run : Outcome :=
  (requestAsset liMissing 0 initState "character" .low).bindO
    (loadWorkerStep liMissing)

/-- A concrete state whose `"character"` entry is mid-load, for the C3
witness. -/
def c3State : AMState :=
  { initState with
    assets := upd initState.assets "character"
      { newAsset "character" .low with state := .loading, refCount := 1 } }

/-! ### C4: totality of the load step over all identifiers -/

/-- The C4 scenario: request the repository's own example id `"hit1"`
(4 bytes), then run the load worker. -/
def c4Run : Outcome :=
  (requestAsset liSmall 0 initState "hit1" .low).bindO (loadWorkerStep liSmall)

/-- The C4 scenario for the empty identifier. -/
def c4RunEmpty : Outcome :=
  (requestAsset liSmall 0 initState "" .low).bindO (loadWorkerStep liSmall)

/-! ### C5: blocking behaviour of high-priority requests -/

/-- The C5 scenario: a first request of `"character"` at `High` priority
on a fresh manager (load queue empty, so the asynchronous path is taken). -/
def c5Run : Outcome := requestAsset liSmall 0 initState "character" .high

/-- Whether `GetTexture` reports the resource present in the final state
of a normally-terminating run. -/
def Outcome.texPresent (o : Outcome) (now : Nat) (id : String) : Bool :=
  match o with
  | .ok s => ((getTexture now s id).fst).snd
  | _ => false

/-! ### Definitions for C6–C10 -/

/-- The operations quantified over by the Critical-no-eviction claim:
`ReleaseAsset` calls, unload-worker iterations and Budget-Monitor ticks. -/
inductive MOp
  | release (id : String)
  | workerStep
  | monitorStep

/-- Execute one manager operation. -/
def execOp (s : AMState) : MOp → AMState
  | .release id => releaseAsset s id
  | .workerStep => unloadWorkerStep s
  | .monitorStep => memoryManagerStep s

/-- Execute a sequence of manager operations. -/
def execOps (s : AMState) : List MOp → AMState
  | [] => s
  | op :: rest => execOps (execOp s op) rest

/-- Every id buffered in the unload queue refers to a non-`Critical`
entry (or to no entry).  This holds for every reachable state because
`ReleaseAsset` is the only producer of unload candidates and it checks
the priority, which is fixed at entry creation. -/
def queueSafe (s : AMState) : Prop :=
  ∀ id ∈ s.unloadQueue, ((s.assets id).map Asset.priority) ≠ some .critical

/-- Whether the Budget Monitor may unload the entry: it exists, has no
outstanding references, is not `Critical`, and is `Loaded`. -/
def evictableB (s : AMState) (id : String) : Bool :=
  match s.assets id with
  | none => false
  | some a =>
    if a.refCount ≤ 0 ∧ a.priority ≠ .critical ∧ a.state = .loaded then true
    else false

/-- The recorded size of the entry under `id` (0 if absent). -/
def sizeAt (s : AMState) (id : String) : Int :=
  match s.assets id with
  | none => 0
  | some a => a.size

/-- Total size of the evictable entries among a list of ids. -/
def evictSum (s : AMState) : List String → Int
  | [] => 0
  | id :: rest => (if evictableB s id then sizeAt s id else 0) + evictSum s rest

/-- Iterate the unload worker `n` times. -/
def iterWorker : Nat → AMState → AMState
  | 0, s => s
  | n + 1, s => iterWorker n (unloadWorkerStep s)

/-- A zero-reference, low-priority loaded entry for the C7 witness. -/
def c7Old : Asset :=
  { newAsset "oldbackdrop" .low with state := .loaded, size := 150 }

/-- A still-referenced loaded entry for the C7 witness. -/
def c7Keep : Asset :=
  { newAsset "activesprite" .high with state := .loaded, size := 50, refCount := 1 }

/-- An over-budget concrete state for the C7 witness. -/
def c7State : AMState :=
  { initState with
    assets := upd (upd initState.assets "oldbackdrop" c7Old) "activesprite" c7Keep
    memoryUsed := 200
    memoryLimit := 100
    accessOrder := ["oldbackdrop", "activesprite"] }

/-- A fully-released Critical loaded entry for the C6 witness. -/
def c6Boss : Asset :=
  { newAsset "bossartwork" .critical with state := .loaded, size := 200, refCount := 1 }

/-- An over-budget concrete state holding only the Critical entry, for
the C6 witness. -/
def c6State : AMState :=
  { initState with
    assets := upd initState.assets "bossartwork" c6Boss
    memoryUsed := 200
    memoryLimit := 100
    accessOrder := ["bossartwork"] }

/-- The C6 witness operation sequence: release the Critical entry down to
zero references, run the unload worker, then run the Budget Monitor while
over budget. -/
def c6Ops : List MOp := [.release "bossartwork", .workerStep, .monitorStep]

/-- A loaded, referenced entry for the C8 witness. -/
def c8Sprite : Asset :=
  { newAsset "spritesheet" .low with state := .loaded, size := 40, refCount := 1 }

/-- A concrete state holding `c8Sprite` for the C8 witness. -/
def c8State : AMState :=
  { initState with
    assets := upd initState.assets "spritesheet" c8Sprite
    memoryUsed := 40 }

/-- A two-element, maximally-full recency list state for the C9 witness
(`maxCached = 2`), so that the update also exercises the truncation. -/
def c9State : AMState :=
  { initState with
    accessOrder := ["uibutton", "uicursor"]
    maxCached := 2 }

/-! ## Theorems -/

/-! ### Basic lemmas about the embedding -/

@[simp]
theorem upd_same (f : String → Option Asset) (id : String) (a : Asset) :
    upd f id a id = some a := by
  simp [upd]

theorem upd_ne (f : String → Option Asset) (id : String) (a : Asset)
    (x : String) (h : x ≠ id) : upd f id a x = f x := by
  simp [upd, h]

theorem upd_upd (f : String → Option Asset) (id : String) (a b : Asset) :
    upd (upd f id a) id b = upd f id b := by
  funext x
  by_cases h : x = id <;> simp [upd, h]

/-- C1 counterexample: after requesting `"alpha"` once and releasing it
twice, the entry's reference count is `-1 < 0` — the second release on the
zero-ref entry is a plain decrement, not a no-op, refuting the claim that
the observed reference count is always `≥ 0`. -/
theorem C1_counterexample :
    c1Run.refCountOf "alpha" = some (-1) ∧ (-1 : Int) < 0 := by
  constructor
  · decide
  · decide

/-- C1 (amended): `ReleaseAsset` on an existing entry always decrements
the reference count by exactly one — also when the count is already zero,
so it can go negative; only releasing an identifier with no entry is a
no-op. -/
theorem C1_release_always_decrements (s : AMState) (id : String) (a : Asset)
    (h : s.assets id = some a) :
    (releaseAsset s id).assets id = some { a with refCount := a.refCount - 1 } ∧
    (∀ jd : String, s.assets jd = none → releaseAsset s jd = s) := by
  constructor
  · simp only [releaseAsset, h]
    split
    · split
      · simp
      · simp
    · simp
  · intro jd hn
    simp [releaseAsset, hn]

/-- Witness for `C1_release_always_decrements` at a concrete zero-ref
entry. -/
theorem C1_witness :
    c1State.assets "alpha" = some c1Asset ∧
    ((releaseAsset c1State "alpha").assets "alpha" =
        some { c1Asset with refCount := c1Asset.refCount - 1 } ∧
      (∀ jd : String, c1State.assets jd = none →
        releaseAsset c1State jd = c1State)) :=
  ⟨by decide, C1_release_always_decrements c1State "alpha" c1Asset (by decide)⟩

/-- C2 failing-input evaluation: with the load queue full, requesting a
new identifier takes the synchronous fallback path, which re-acquires the
Registry write lock already held by `RequestAsset` — the call
self-deadlocks (and for identifiers shorter than 9 bytes it panics first);
it never completes, contrary to the claimed forward-progress guarantee. -/
theorem C2_saturated_request_never_completes :
    (requestAsset liSmall 0 fullQueueState "character2" .low).isDeadlocked = true ∧
    (requestAsset liSmall 0 fullQueueState "hit1" .low).isPanicked = true ∧
    (requestAsset liSmall 0 fullQueueState "character2" .low).isOk = false ∧
    (requestAsset liSmall 0 fullQueueState "hit1" .low).isOk = false := by
  refine ⟨?_, ?_, ?_, ?_⟩ <;> decide

/-! ### Shared lemma: the commit path of `loadAssetSync` -/

/-- When called without the Registry lock held on an entry still in
`Loading` whose identifier is at least 9 bytes long, `loadAssetSync`
always commits: it returns normally with the entry `Loaded`, its size
added to the memory total and the load future signalled with `true` —
regardless of what the decode oracle produced. -/
theorem loadAssetSync_commits (li : String → Texture2D) (s : AMState)
    (id : String) (a : Asset) (hA : s.assets id = some a)
    (hS : a.state = .loading) (hLen : 9 ≤ id.length) :
    ∃ tex : Texture2D,
      loadAssetSync li false s id =
        .ok { s with
          assets := upd s.assets id
            { a with
              texture := tex
              size := (tex.width * tex.height * 4 : Nat)
              state := .loaded
              loadFuture := sendSignal a.loadFuture true }
          memoryUsed := s.memoryUsed + (tex.width * tex.height * 4 : Nat) } := by
  refine ⟨if id.take 9 = "character" then li "assets/images/character.png"
          else li ("assets/images/" ++ id ++ ".png"), ?_⟩
  unfold loadAssetSync
  rw [hA]
  dsimp only
  rw [if_pos hS, if_neg (by omega : ¬ id.length < 9)]
  simp

/-- C3 counterexample: when resource construction fails (the decode
produces the empty texture of a missing file), the load step still leaves
the entry `Loaded` — not reset to `Unloaded` — and fires the load signal
with `true` (success), not a failure indication; no `AssetLoadError`
exists anywhere in the code. -/
theorem C3_counterexample :
    c3Run.stateOf "character" = some .loaded ∧
    ¬ c3Run.stateOf "character" = some .unloaded ∧
    (c3Run.assetOf "character").map Asset.loadFuture = some [true] := by
  refine ⟨?_, ?_, ?_⟩ <;> decide

/-- C3 (amended): the load step has no failure branch at all — for every
decode result (including the empty texture of a missing or undecodable
resource) it marks the entry `Loaded`, records the decoded size, adds it
to the memory total and fires the load signal with `true`; the only
non-`Loaded` outcome is the panic for identifiers shorter than 9 bytes. -/
theorem C3_load_never_fails (li : String → Texture2D) (s : AMState)
    (id : String) (a : Asset) (hA : s.assets id = some a)
    (hS : a.state = .loading) (hLen : 9 ≤ id.length) :
    ∃ s' a', loadAssetSync li false s id = .ok s' ∧
      s'.assets id = some a' ∧
      a'.state = .loaded ∧
      a'.loadFuture = sendSignal a.loadFuture true ∧
      s'.memoryUsed = s.memoryUsed + a'.size := by
  obtain ⟨tex, htex⟩ := loadAssetSync_commits li s id a hA hS hLen
  refine ⟨_, _, htex, upd_same _ _ _, rfl, rfl, rfl⟩

/-- Witness for `C3_load_never_fails` with the failing decode oracle at a
concrete mid-load state. -/
theorem C3_witness :
    c3State.assets "character" =
      some { newAsset "character" .low with state := .loading, refCount := 1 } ∧
    (9 : Nat) ≤ "character".length ∧
    (∃ s' a', loadAssetSync liMissing false c3State "character" = .ok s' ∧
      s'.assets "character" = some a' ∧
      a'.state = .loaded ∧
      a'.loadFuture =
        sendSignal { newAsset "character" .low with
          state := .loading, refCount := 1 }.loadFuture true ∧
      s'.memoryUsed = c3State.memoryUsed + a'.size) :=
  ⟨by decide, by decide,
    C3_load_never_fails liMissing c3State "character" _ (by decide) (by decide)
      (by decide)⟩

/-- C4 failing-input evaluation: requesting `"hit1"` (an id the
repository's own example code uses) or the empty id does create an entry
in `Loading` state, but the subsequent load step evaluates `assetID[:9]`
and panics — the process terminates instead of resolving the entry to a
recoverable per-asset failure, refuting totality of the load function. -/
theorem C4_short_id_load_panics :
    (requestAsset liSmall 0 initState "hit1" .low).stateOf "hit1" =
      some .loading ∧
    c4Run.isPanicked = true ∧
    (requestAsset liSmall 0 initState "" .low).stateOf "" = some .loading ∧
    c4RunEmpty.isPanicked = true := by
  refine ⟨?_, ?_, ?_, ?_⟩ <;> decide

/-- C5 counterexample: `RequestAsset` at `High` priority returns
immediately — the entry is still `Loading` on return and `GetTexture`
reports the resource absent, refuting the claim that the `RequestAsset`
call itself blocks until the load signal fires and that the resource is
usable on return. -/
theorem C5_counterexample :
    c5Run.isOk = true ∧
    c5Run.stateOf "character" = some .loading ∧
    c5Run.texPresent 1 "character" = false := by
  refine ⟨?_, ?_, ?_⟩ <;> decide

/-- C5 (amended): `RequestAsset` itself never blocks and may return with
the entry still `Loading`; the load-before-return contract for priorities
`≥ High` is provided by the façade `LoadSystemAssets`, which after
requesting waits on the entry's load future — once the load worker has
processed the request, the receive succeeds with `true`, the entry is
`Loaded`, and `GetTexture` immediately reports the resource present. -/
theorem C5_load_before_return_via_facade (li : String → Texture2D) (now : Nat)
    (s : AMState) (id : String) (p : AssetPriority)
    (hA : s.assets id = none) (hQ : s.loadQueue = []) (hLen : 9 ≤ id.length) :
    ∃ s₁, requestAsset li now s id p = .ok s₁ ∧
      (s₁.assets id).map Asset.state = some .loading ∧
      ∃ s₂, loadWorkerStep li s₁ = .ok s₂ ∧
        ∃ s₃, awaitFuture s₂ id = some (true, s₃) ∧
          (s₃.assets id).map Asset.state = some .loaded ∧
          ((getTexture now s₃ id).fst).snd = true := by
  have h9 : ¬ id.length < 9 := by omega
  by_cases hc : id.take 9 = "character" <;>
    simp [requestAsset, loadWorkerStep, loadAssetSync, awaitFuture, getTexture,
      updateAccessOrder, newAsset, sendSignal, upd_upd, upd, hA, hQ, h9, hc,
      loadQueueCap]

/-- Witness for `C5_load_before_return_via_facade` at a fresh manager and
the id `"character"` requested at `High` priority. -/
theorem C5_witness :
    initState.assets "character" = none ∧
    initState.loadQueue = [] ∧
    (9 : Nat) ≤ "character".length ∧
    (∃ s₁, requestAsset liSmall 0 initState "character" .high = .ok s₁ ∧
      (s₁.assets "character").map Asset.state = some .loading ∧
      ∃ s₂, loadWorkerStep liSmall s₁ = .ok s₂ ∧
        ∃ s₃, awaitFuture s₂ "character" = some (true, s₃) ∧
          (s₃.assets "character").map Asset.state = some .loaded ∧
          ((getTexture 0 s₃ "character").fst).snd = true) :=
  ⟨rfl, rfl, by decide,
    C5_load_before_return_via_facade liSmall 0 initState "character" .high rfl
      rfl (by decide)⟩

/-! ### Preservation lemmas for the unload paths -/

theorem unloadAssetSync_ne (s : AMState) (id jd : String) (h : jd ≠ id) :
    (unloadAssetSync s id).assets jd = s.assets jd := by
  unfold unloadAssetSync
  cases hA : s.assets id with
  | none => rfl
  | some a =>
    dsimp only
    split
    · exact upd_ne _ _ _ _ h
    · rfl

theorem unloadAssetSync_priority (s : AMState) (id jd : String) :
    ((unloadAssetSync s id).assets jd).map Asset.priority =
      (s.assets jd).map Asset.priority := by
  unfold unloadAssetSync
  cases hA : s.assets id with
  | none => rfl
  | some a =>
    dsimp only
    split
    · by_cases h : jd = id
      · subst h
        simp [upd, hA]
      · simp [upd, h]
    · rfl

theorem unloadAssetSync_unloadQueue (s : AMState) (id : String) :
    (unloadAssetSync s id).unloadQueue = s.unloadQueue := by
  unfold unloadAssetSync
  cases s.assets id with
  | none => rfl
  | some a =>
    dsimp only
    split <;> rfl

theorem releaseAsset_assets_self (s : AMState) (id : String) (a : Asset)
    (h : s.assets id = some a) :
    (releaseAsset s id).assets id = some { a with refCount := a.refCount - 1 } := by
  simp only [releaseAsset, h]
  split
  · split
    · simp
    · simp
  · simp

theorem releaseAsset_priority (s : AMState) (id jd : String) :
    ((releaseAsset s id).assets jd).map Asset.priority =
      (s.assets jd).map Asset.priority := by
  unfold releaseAsset
  cases hA : s.assets id with
  | none => rfl
  | some a =>
    dsimp only
    by_cases h : jd = id
    · subst h
      split
      · split <;> simp [upd, hA]
      · simp [upd, hA]
    · split
      · split <;> simp [upd, h]
      · simp [upd, h]

theorem releaseAsset_state (s : AMState) (id jd : String) :
    ((releaseAsset s id).assets jd).map Asset.state =
      (s.assets jd).map Asset.state := by
  unfold releaseAsset
  cases hA : s.assets id with
  | none => rfl
  | some a =>
    dsimp only
    by_cases h : jd = id
    · subst h
      split
      · split <;> simp [upd, hA]
      · simp [upd, hA]
    · split
      · split <;> simp [upd, h]
      · simp [upd, h]

theorem unloadWorkerStep_priority (s : AMState) (jd : String) :
    ((unloadWorkerStep s).assets jd).map Asset.priority =
      (s.assets jd).map Asset.priority := by
  unfold unloadWorkerStep
  cases hqu : s.unloadQueue with
  | nil => rfl
  | cons h rest =>
    dsimp only
    cases hh : s.assets h with
    | none => rfl
    | some b =>
      dsimp only
      split
      · exact unloadAssetSync_priority _ _ _
      · rfl

theorem unloadWorkerStep_unloadQueue (s : AMState) :
    (unloadWorkerStep s).unloadQueue = s.unloadQueue.tail := by
  unfold unloadWorkerStep
  cases hqu : s.unloadQueue with
  | nil =>
    dsimp only
    rw [hqu]
    rfl
  | cons h rest =>
    dsimp only
    cases hh : s.assets h with
    | none => rfl
    | some b =>
      dsimp only
      split
      · exact unloadAssetSync_unloadQueue _ _
      · rfl

theorem unloadWorkerStep_critical (s : AMState) (cid : String)
    (hq : queueSafe s)
    (hp : (s.assets cid).map Asset.priority = some .critical) :
    (unloadWorkerStep s).assets cid = s.assets cid := by
  unfold unloadWorkerStep
  cases hqu : s.unloadQueue with
  | nil => rfl
  | cons h rest =>
    dsimp only
    cases hh : s.assets h with
    | none => rfl
    | some b =>
      dsimp only
      split
      · have hmem : h ∈ s.unloadQueue := by
          rw [hqu]
          exact List.mem_cons_self h rest
        have hne : cid ≠ h := by
          intro he
          subst he
          exact hq cid hmem hp
        exact unloadAssetSync_ne _ _ _ hne
      · rfl

theorem queueSafe_release (s : AMState) (id : String) (hq : queueSafe s) :
    queueSafe (releaseAsset s id) := by
  intro x hx
  rw [releaseAsset_priority]
  unfold releaseAsset at hx
  cases hA : s.assets id with
  | none =>
    rw [hA] at hx
    exact hq x hx
  | some a =>
    rw [hA] at hx
    dsimp only at hx
    split at hx
    · next hgd =>
      split at hx
      · dsimp only at hx
        rcases List.mem_append.1 hx with h1 | h1
        · exact hq x h1
        · have hxid : x = id := by simpa using h1
          subst hxid
          rw [hA]
          simpa using hgd.2
      · exact hq x hx
    · exact hq x hx

theorem queueSafe_worker (s : AMState) (hq : queueSafe s) :
    queueSafe (unloadWorkerStep s) := by
  intro x hx
  rw [unloadWorkerStep_priority]
  apply hq
  rw [unloadWorkerStep_unloadQueue] at hx
  exact List.mem_of_mem_tail hx

/-! ### Lemmas about the Budget Monitor loop -/

theorem freeLoop_priority (t : Int) (l : List String) :
    ∀ (s : AMState) (jd : String),
      ((freeLoop t l s).assets jd).map Asset.priority =
        (s.assets jd).map Asset.priority := by
  induction l with
  | nil => intro s jd; rfl
  | cons id rest ih =>
    intro s jd
    unfold freeLoop
    split
    · refine (ih _ jd).trans ?_
      cases hA : s.assets id with
      | none => rfl
      | some a =>
        dsimp only
        split
        · exact unloadAssetSync_priority _ _ _
        · rfl
    · rfl

theorem freeLoop_unloadQueue (t : Int) (l : List String) :
    ∀ s : AMState, (freeLoop t l s).unloadQueue = s.unloadQueue := by
  induction l with
  | nil => intro s; rfl
  | cons id rest ih =>
    intro s
    unfold freeLoop
    split
    · refine (ih _).trans ?_
      cases hA : s.assets id with
      | none => rfl
      | some a =>
        dsimp only
        split
        · exact unloadAssetSync_unloadQueue _ _
        · rfl
    · rfl

theorem freeLoop_protected (t : Int) (l : List String) :
    ∀ (s : AMState) (jd : String) (a : Asset), s.assets jd = some a →
      (0 < a.refCount ∨ a.priority = .critical) →
      (freeLoop t l s).assets jd = some a := by
  induction l with
  | nil => intro s jd a hA _; exact hA
  | cons id rest ih =>
    intro s jd a hA hp
    unfold freeLoop
    split
    · apply ih _ _ _ ?_ hp
      cases hB : s.assets id with
      | none => exact hA
      | some b =>
        dsimp only
        split
        · next hgd =>
          have hne : jd ≠ id := by
            intro he
            subst he
            rw [hA] at hB
            cases hB
            rcases hp with h1 | h1
            · omega
            · exact hgd.2 h1
          rw [unloadAssetSync_ne _ _ _ hne]
          exact hA
        · exact hA
    · exact hA

theorem evictableB_congr (s s' : AMState) (x : String)
    (h : s'.assets x = s.assets x) : evictableB s' x = evictableB s x := by
  unfold evictableB
  rw [h]

theorem sizeAt_congr (s s' : AMState) (x : String)
    (h : s'.assets x = s.assets x) : sizeAt s' x = sizeAt s x := by
  unfold sizeAt
  rw [h]

theorem evictSum_congr (s s' : AMState) (l : List String)
    (h : ∀ x ∈ l, s'.assets x = s.assets x) : evictSum s' l = evictSum s l := by
  induction l with
  | nil => rfl
  | cons x rest ih =>
    unfold evictSum
    rw [evictableB_congr s s' x (h x (List.mem_cons_self x rest)),
      sizeAt_congr s s' x (h x (List.mem_cons_self x rest)),
      ih fun y hy => h y (List.mem_cons_of_mem x hy)]

theorem evictableB_none (s : AMState) (id : String) (hA : s.assets id = none) :
    evictableB s id = false := by
  unfold evictableB
  rw [hA]

theorem evictableB_some (s : AMState) (id : String) (a : Asset)
    (hA : s.assets id = some a) :
    evictableB s id =
      if a.refCount ≤ 0 ∧ a.priority ≠ .critical ∧ a.state = .loaded then true
      else false := by
  unfold evictableB
  rw [hA]

theorem sizeAt_some (s : AMState) (id : String) (a : Asset)
    (hA : s.assets id = some a) : sizeAt s id = a.size := by
  unfold sizeAt
  rw [hA]

theorem evictSum_cons (s : AMState) (id : String) (rest : List String) :
    evictSum s (id :: rest) =
      (if evictableB s id then sizeAt s id else 0) + evictSum s rest := rfl

theorem evictSum_cons_true (s : AMState) (id : String) (rest : List String)
    (he : evictableB s id = true) :
    evictSum s (id :: rest) = sizeAt s id + evictSum s rest := by
  rw [evictSum_cons, he]
  simp

theorem evictSum_cons_false (s : AMState) (id : String) (rest : List String)
    (he : evictableB s id = false) :
    evictSum s (id :: rest) = evictSum s rest := by
  rw [evictSum_cons, he]
  simp

theorem freeLoop_le (t : Int) (l : List String) :
    ∀ s : AMState, l.Nodup → s.memoryUsed - evictSum s l ≤ t →
      (freeLoop t l s).memoryUsed ≤ t := by
  induction l with
  | nil =>
    intro s _ h
    have h0 : evictSum s [] = 0 := rfl
    rw [h0] at h
    simp only [freeLoop]
    omega
  | cons id rest ih =>
    intro s hnd h
    have hid : id ∉ rest := (List.nodup_cons.1 hnd).1
    unfold freeLoop
    split
    · cases hA : s.assets id with
      | none =>
        dsimp only
        apply ih _ hnd.of_cons
        rw [evictSum_cons_false s id rest (evictableB_none s id hA)] at h
        omega
      | some a =>
        dsimp only
        split
        · next hgd =>
          unfold unloadAssetSync
          rw [hA]
          dsimp only
          split
          · next hst =>
            -- the entry is evicted: memory drops by its recorded size
            have he : evictableB s id = true := by
              rw [evictableB_some s id a hA, if_pos ⟨hgd.1, hgd.2, hst⟩]
            apply ih _ hnd.of_cons
            have hrest : evictSum
                { s with
                  assets := upd s.assets id { a with state := AssetState.unloaded }
                  memoryUsed := s.memoryUsed - a.size } rest = evictSum s rest := by
              apply evictSum_congr
              intro x hx
              exact upd_ne _ _ _ _ fun he' => hid (he' ▸ hx)
            rw [hrest]
            rw [evictSum_cons_true s id rest he, sizeAt_some s id a hA] at h
            dsimp only
            omega
          · next hst =>
            -- guard passed but the entry is not Loaded: unload is a no-op
            apply ih _ hnd.of_cons
            have he : evictableB s id = false := by
              rw [evictableB_some s id a hA, if_neg fun hc => hst hc.2.2]
            rw [evictSum_cons_false s id rest he] at h
            omega
        · next hgd =>
          apply ih _ hnd.of_cons
          have he : evictableB s id = false := by
            rw [evictableB_some s id a hA, if_neg fun hc => hgd ⟨hc.1, hc.2.1⟩]
          rw [evictSum_cons_false s id rest he] at h
          omega
    · next hgt =>
      omega

/-! ### C7: the Budget Monitor reclaims to the target fraction -/

/-- C7: when the Budget Monitor runs with total usage above the limit,
the recency list holds no duplicates, and the evictable entries
(zero-reference, non-Critical, Loaded entries present in the recency
list) cover the excess above the 80% target, then the post-run total is
at most `memoryLimit * 80 / 100`; and every entry with outstanding
references or `Critical` priority is left untouched. -/
theorem C7_monitor_reclaims_to_target (s : AMState)
    (hnd : s.accessOrder.Nodup)
    (hover : s.memoryLimit < s.memoryUsed)
    (henough : s.memoryUsed - evictSum s s.accessOrder ≤ targetMemory s) :
    (memoryManagerStep s).memoryUsed ≤ targetMemory s ∧
    (∀ jd a, s.assets jd = some a →
      (0 < a.refCount ∨ a.priority = .critical) →
      (memoryManagerStep s).assets jd = some a) := by
  unfold memoryManagerStep
  rw [if_pos hover]
  unfold freeMemoryLRU
  exact ⟨freeLoop_le _ _ _ hnd henough,
    fun jd a hA hp => freeLoop_protected _ _ _ _ _ hA hp⟩

/-- Witness for `C7_monitor_reclaims_to_target` at a concrete over-budget
state: the monitor evicts the 150-byte zero-reference entry and the total
falls from 200 to 50 ≤ 80. -/
theorem C7_witness :
    c7State.accessOrder.Nodup ∧
    c7State.memoryLimit < c7State.memoryUsed ∧
    c7State.memoryUsed - evictSum c7State c7State.accessOrder ≤ targetMemory c7State ∧
    ((memoryManagerStep c7State).memoryUsed ≤ targetMemory c7State ∧
      (∀ jd a, c7State.assets jd = some a →
        (0 < a.refCount ∨ a.priority = .critical) →
        (memoryManagerStep c7State).assets jd = some a)) :=
  ⟨by decide, by decide, by decide,
    C7_monitor_reclaims_to_target c7State (by decide) (by decide) (by decide)⟩

/-! ### C6: Critical entries survive release/worker/monitor sequences -/

theorem memoryManagerStep_priority (s : AMState) (jd : String) :
    ((memoryManagerStep s).assets jd).map Asset.priority =
      (s.assets jd).map Asset.priority := by
  unfold memoryManagerStep freeMemoryLRU
  split
  · exact freeLoop_priority _ _ _ _
  · rfl

theorem memoryManagerStep_unloadQueue (s : AMState) :
    (memoryManagerStep s).unloadQueue = s.unloadQueue := by
  unfold memoryManagerStep freeMemoryLRU
  split
  · exact freeLoop_unloadQueue _ _ _
  · rfl

theorem queueSafe_monitor (s : AMState) (hq : queueSafe s) :
    queueSafe (memoryManagerStep s) := by
  intro x hx
  rw [memoryManagerStep_priority]
  apply hq
  rwa [memoryManagerStep_unloadQueue] at hx

theorem memoryManagerStep_critical (s : AMState) (cid : String)
    (hp : (s.assets cid).map Asset.priority = some .critical) :
    (memoryManagerStep s).assets cid = s.assets cid := by
  obtain ⟨a, hA, hpa⟩ := Option.map_eq_some'.1 hp
  unfold memoryManagerStep freeMemoryLRU
  split
  · rw [freeLoop_protected _ _ _ _ _ hA (Or.inr hpa)]
    exact hA.symm
  · rfl

theorem execOp_preserves (s : AMState) (cid : String) (op : MOp)
    (hq : queueSafe s)
    (hp : (s.assets cid).map Asset.priority = some .critical)
    (hl : (s.assets cid).map Asset.state = some .loaded) :
    queueSafe (execOp s op) ∧
      ((execOp s op).assets cid).map Asset.priority = some .critical ∧
      ((execOp s op).assets cid).map Asset.state = some .loaded := by
  cases op with
  | release id =>
    simp only [execOp]
    refine ⟨queueSafe_release s id hq, ?_, ?_⟩
    · rw [releaseAsset_priority]
      exact hp
    · rw [releaseAsset_state]
      exact hl
  | workerStep =>
    simp only [execOp]
    refine ⟨queueSafe_worker s hq, ?_, ?_⟩
    · rw [unloadWorkerStep_critical s cid hq hp]
      exact hp
    · rw [unloadWorkerStep_critical s cid hq hp]
      exact hl
  | monitorStep =>
    simp only [execOp]
    refine ⟨queueSafe_monitor s hq, ?_, ?_⟩
    · rw [memoryManagerStep_critical s cid hp]
      exact hp
    · rw [memoryManagerStep_critical s cid hp]
      exact hl

/-- C6: starting from any state whose unload queue holds only
non-Critical candidates (true of every reachable state, since
`ReleaseAsset` checks the priority before enqueueing and an entry's
priority never changes), no sequence of `ReleaseAsset` calls,
unload-worker iterations and Budget-Monitor ticks ever moves a `Loaded`
`Critical` entry out of the `Loaded` state. -/
theorem C6_critical_never_evicted (s : AMState) (cid : String)
    (ops : List MOp) (hq : queueSafe s)
    (hp : (s.assets cid).map Asset.priority = some .critical)
    (hl : (s.assets cid).map Asset.state = some .loaded) :
    ((execOps s ops).assets cid).map Asset.state = some .loaded := by
  induction ops generalizing s with
  | nil => exact hl
  | cons op rest ih =>
    obtain ⟨hq', hp', hl'⟩ := execOp_preserves s cid op hq hp hl
    exact ih _ hq' hp' hl'

/-- Witness for `C6_critical_never_evicted`: the fully released Critical
entry survives a worker iteration and an over-budget monitor tick. -/
theorem C6_witness :
    queueSafe c6State ∧
    (c6State.assets "bossartwork").map Asset.priority = some .critical ∧
    (c6State.assets "bossartwork").map Asset.state = some .loaded ∧
    ((execOps c6State c6Ops).assets "bossartwork").map Asset.state =
      some .loaded :=
  ⟨fun x hx => absurd hx (List.not_mem_nil x), by decide, by decide,
    C6_critical_never_evicted c6State "bossartwork" c6Ops
      (fun x hx => absurd hx (List.not_mem_nil x)) (by decide) (by decide)⟩

/-! ### C8: debounce re-check absorbs release/re-request churn -/

theorem unloadWorkerStep_referenced (s : AMState) (id : String) (a : Asset)
    (hA : s.assets id = some a) (hR : 1 ≤ a.refCount) :
    (unloadWorkerStep s).assets id = some a := by
  unfold unloadWorkerStep
  cases hqu : s.unloadQueue with
  | nil => exact hA
  | cons h rest =>
    dsimp only
    cases hh : s.assets h with
    | none => exact hA
    | some b =>
      dsimp only
      split
      · next hb =>
        have hne : id ≠ h := by
          intro he
          subst he
          rw [hA] at hh
          cases hh
          omega
        rw [unloadAssetSync_ne _ _ _ hne]
        exact hA
      · exact hA

theorem iterWorker_referenced (n : Nat) :
    ∀ (s : AMState) (id : String) (a : Asset), s.assets id = some a →
      1 ≤ a.refCount → (iterWorker n s).assets id = some a := by
  induction n with
  | zero => intro s id a hA _; exact hA
  | succ n ih =>
    intro s id a hA hR
    exact ih _ _ _ (unloadWorkerStep_referenced s id a hA hR) hR

theorem requestAsset_existing_active (li : String → Texture2D) (now : Nat)
    (s : AMState) (id : String) (p : AssetPriority) (a : Asset)
    (hA : s.assets id = some a) (hS : ¬ a.state = .unloaded) :
    requestAsset li now s id p =
      .ok (updateAccessOrder
        { s with
          assets := upd s.assets id
            { a with refCount := a.refCount + 1, lastUsed := now }
          refCounts := fun x => if x = id then s.refCounts x + 1
            else s.refCounts x } id) := by
  unfold requestAsset
  rw [hA]
  dsimp only [Option.getD]
  rw [if_neg hS]

theorem getTexture_present_bool (now : Nat) (s : AMState) (id : String)
    (b : Asset) (hA : s.assets id = some b) (hL : b.state = .loaded) :
    ((getTexture now s id).fst).snd = true := by
  unfold getTexture
  rw [hA]
  dsimp only
  rw [if_pos hL]

/-- C8: releasing a `Loaded` asset and re-requesting it before the
debounce wait expires leaves it `Loaded` throughout: the release does not
unload synchronously, the re-request leaves the loaded entry in place,
and every subsequent unload-worker iteration re-checks the reference
count after its debounce sleep and drops the candidate because the count
is positive again — so `GetTexture` reports the resource present at the
end. -/
theorem C8_churn_absorption (li : String → Texture2D) (now : Nat)
    (s : AMState) (id : String) (a : Asset) (p : AssetPriority) (n : Nat)
    (hA : s.assets id = some a) (hL : a.state = .loaded)
    (hR : 1 ≤ a.refCount) :
    ((releaseAsset s id).assets id).map Asset.state = some .loaded ∧
    ∃ s₂, requestAsset li now (releaseAsset s id) id p = .ok s₂ ∧
      (s₂.assets id).map Asset.state = some .loaded ∧
      ((iterWorker n s₂).assets id).map Asset.state = some .loaded ∧
      ((getTexture now (iterWorker n s₂) id).fst).snd = true := by
  have h1 := releaseAsset_assets_self s id a hA
  have hS : ¬ ({ a with refCount := a.refCount - 1 } : Asset).state = .unloaded := by
    simp [hL]
  have h2 := requestAsset_existing_active li now (releaseAsset s id) id p
    { a with refCount := a.refCount - 1 } h1 hS
  constructor
  · rw [h1]
    simp [hL]
  · refine ⟨updateAccessOrder
      { releaseAsset s id with
        assets := upd (releaseAsset s id).assets id
          { a with refCount := a.refCount - 1 + 1, lastUsed := now }
        refCounts := fun x => if x = id then (releaseAsset s id).refCounts x + 1
          else (releaseAsset s id).refCounts x } id, ?_, ?_, ?_, ?_⟩
    · exact h2
    · simp [updateAccessOrder, hL]
    · rw [iterWorker_referenced n _ id
        { a with refCount := a.refCount - 1 + 1, lastUsed := now }
        (by simp [updateAccessOrder]) (by simp; omega)]
      simp [hL]
    · exact getTexture_present_bool now _ id
        { a with refCount := a.refCount - 1 + 1, lastUsed := now }
        (iterWorker_referenced n _ id _ (by simp [updateAccessOrder])
          (by simp; omega))
        (by simp [hL])

/-- Witness for `C8_churn_absorption`: release then re-request the loaded
sprite and run the unload worker twice; the entry stays `Loaded` and
`GetTexture` still reports it present. -/
theorem C8_witness :
    c8State.assets "spritesheet" = some c8Sprite ∧
    c8Sprite.state = .loaded ∧
    (1 : Int) ≤ c8Sprite.refCount ∧
    (((releaseAsset c8State "spritesheet").assets "spritesheet").map
        Asset.state = some .loaded ∧
      ∃ s₂, requestAsset liSmall 7 (releaseAsset c8State "spritesheet")
          "spritesheet" .low = .ok s₂ ∧
        (s₂.assets "spritesheet").map Asset.state = some .loaded ∧
        ((iterWorker 2 s₂).assets "spritesheet").map Asset.state =
          some .loaded ∧
        ((getTexture 7 (iterWorker 2 s₂) "spritesheet").fst).snd = true) :=
  ⟨by decide, by decide, by decide,
    C8_churn_absorption liSmall 7 c8State "spritesheet" c8Sprite .low 2
      (by decide) (by decide) (by decide)⟩

/-! ### C9: recency-tracker invariants -/

/-- C9: after an update of the recency tracker, identifiers still appear
at most once, the list never exceeds the configured maximum tracked size,
and the update changes no entry and no memory total — truncation is
tracking-only, not eviction. -/
theorem C9_recency_tracking_bounded (s : AMState) (id : String)
    (h₁ : s.accessOrder.Nodup) (h₂ : s.accessOrder.length ≤ s.maxCached) :
    (updateAccessOrder s id).accessOrder.Nodup ∧
    (updateAccessOrder s id).accessOrder.length ≤ s.maxCached ∧
    (updateAccessOrder s id).assets = s.assets ∧
    (updateAccessOrder s id).memoryUsed = s.memoryUsed := by
  have hn2 : (s.accessOrder.erase id ++ [id]).Nodup :=
    (h₁.erase id).append (List.nodup_singleton id)
      (List.disjoint_singleton.2 h₁.not_mem_erase)
  have hlen : (s.accessOrder.erase id ++ [id]).length ≤ s.maxCached + 1 := by
    have he := (List.erase_sublist id s.accessOrder).length_le
    simp only [List.length_append, List.length_singleton]
    omega
  unfold updateAccessOrder
  dsimp only
  refine ⟨?_, ?_, rfl, rfl⟩
  · split
    · exact hn2.sublist (List.drop_sublist 1 _)
    · exact hn2
  · split
    · simp only [List.length_drop]
      omega
    · next hle =>
      omega

/-- Witness for `C9_recency_tracking_bounded` at a full tracker. -/
theorem C9_witness :
    c9State.accessOrder.Nodup ∧
    c9State.accessOrder.length ≤ c9State.maxCached ∧
    ((updateAccessOrder c9State "uimenu").accessOrder.Nodup ∧
      (updateAccessOrder c9State "uimenu").accessOrder.length ≤ c9State.maxCached ∧
      (updateAccessOrder c9State "uimenu").assets = c9State.assets ∧
      (updateAccessOrder c9State "uimenu").memoryUsed = c9State.memoryUsed) :=
  ⟨by decide, by decide,
    C9_recency_tracking_bounded c9State "uimenu" (by decide) (by decide)⟩

/-! ### C10: GetTexture is read-only except for the timestamp -/

/-- C10: fetching a loaded resource with `GetTexture` returns the handle
and refreshes only the entry's `lastUsed` timestamp; it never touches the
recency list, the queues, the memory total or any other entry — so the
eviction order is driven solely by `RequestAsset` calls, and reads do not
change any entry's evictability. -/
theorem C10_gettexture_read_only (now : Nat) (s : AMState) (id : String) :
    ((getTexture now s id).snd).accessOrder = s.accessOrder ∧
    ((getTexture now s id).snd).memoryUsed = s.memoryUsed ∧
    ((getTexture now s id).snd).loadQueue = s.loadQueue ∧
    ((getTexture now s id).snd).unloadQueue = s.unloadQueue ∧
    (∀ jd, jd ≠ id → ((getTexture now s id).snd).assets jd = s.assets jd) ∧
    (∀ jd, evictableB ((getTexture now s id).snd) jd = evictableB s jd) ∧
    (∀ a, s.assets id = some a → a.state = .loaded →
      (getTexture now s id).fst = (a.texture, true) ∧
      ((getTexture now s id).snd).assets id = some { a with lastUsed := now }) ∧
    (∀ a, s.assets id = some a → ¬ a.state = .loaded →
      (getTexture now s id).snd = s ∧
      ((getTexture now s id).fst).snd = false) := by
  unfold getTexture
  cases hA : s.assets id with
  | none =>
    refine ⟨rfl, rfl, rfl, rfl, fun _ _ => rfl, fun _ => rfl, ?_, ?_⟩
    · intro a ha _
      exact Option.noConfusion ha
    · intro a ha _
      exact Option.noConfusion ha
  | some a =>
    dsimp only
    split
    · next hLd =>
      refine ⟨rfl, rfl, rfl, rfl, ?_, ?_, ?_, ?_⟩
      · intro jd hj
        exact upd_ne _ _ _ _ hj
      · intro jd
        by_cases hj : jd = id
        · subst hj
          simp [evictableB, upd_same, hA]
        · exact evictableB_congr _ _ _ (upd_ne _ _ _ _ hj)
      · intro a' ha' _
        injection ha' with h
        subst h
        exact ⟨rfl, upd_same _ _ _⟩
      · intro a' ha' hnl
        injection ha' with h
        subst h
        exact absurd hLd hnl
    · next hLd =>
      refine ⟨rfl, rfl, rfl, rfl, fun _ _ => rfl, fun _ => rfl, ?_, ?_⟩
      · intro a' ha' hld
        injection ha' with h
        subst h
        exact absurd hld hLd
      · intro a' _ _
        exact ⟨rfl, rfl⟩

/-- Witness for `C10_gettexture_read_only` at a concrete loaded entry. -/
theorem C10_witness :
    ((getTexture 9 c8State "spritesheet").snd).accessOrder =
      c8State.accessOrder ∧
    ((getTexture 9 c8State "spritesheet").snd).memoryUsed =
      c8State.memoryUsed ∧
    ((getTexture 9 c8State "spritesheet").snd).loadQueue =
      c8State.loadQueue ∧
    ((getTexture 9 c8State "spritesheet").snd).unloadQueue =
      c8State.unloadQueue ∧
    (∀ jd, jd ≠ "spritesheet" →
      ((getTexture 9 c8State "spritesheet").snd).assets jd =
        c8State.assets jd) ∧
    (∀ jd, evictableB ((getTexture 9 c8State "spritesheet").snd) jd =
      evictableB c8State jd) ∧
    (∀ a, c8State.assets "spritesheet" = some a → a.state = .loaded →
      (getTexture 9 c8State "spritesheet").fst = (a.texture, true) ∧
      ((getTexture 9 c8State "spritesheet").snd).assets "spritesheet" =
        some { a with lastUsed := 9 }) ∧
    (∀ a, c8State.assets "spritesheet" = some a → ¬ a.state = .loaded →
      (getTexture 9 c8State "spritesheet").snd = c8State ∧
      ((getTexture 9 c8State "spritesheet").fst).snd = false) :=
  C10_gettexture_read_only 9 c8State "spritesheet"

end Loader
